import Mathlib

/-!
Shallow embedding of `src/winpos.py` (window arrangement tool).

Conventions of the embedding:
* Python exceptions are modelled with `Except PyErr`; a function that can
  raise returns `Except PyErr α`.
* Python `int` is Lean `Int` (CPython integers are unbounded).
* CPython float division followed by `int(...)` truncation (as in
  `int(target * perc / 100)` and `int((h - x) / 2)`) is modelled as exact
  rational division truncated toward zero, `Int.tdiv`; the floats involved
  in the program are exact for all realistic screen geometry.
* `subprocess` collaborators (xrandr, xdotool, pgrep) are oracles: their
  observable answers are parameters, and the calls issued to them are
  recorded in a trace.
-/

namespace WinPos

/-- Python exception kinds that `winpos.py` can raise. -/
inductive PyErr where
  | valueError
  | assertionError
  | indexError
  | keyError
  | calledProcessError
deriving DecidableEq, Repr

/-- Python `s.strip(c)` for a single-character strip set: removes leading and
trailing occurrences of `c`. Used for `data[0].strip(':')`. -/
def pyStripChar (c : Char) (s : String) : String :=
  ⟨((s.data.dropWhile (· == c)).reverse.dropWhile (· == c)).reverse⟩

/-- Python `s.strip()`: removes surrounding whitespace. (Structurally
recursive stand-in for `String.trim`, so that proofs can evaluate it.) -/
def pyTrim (s : String) : String :=
  ⟨((s.data.dropWhile Char.isWhitespace).reverse.dropWhile Char.isWhitespace).reverse⟩

/-- ASCII lower-casing of one character, as Python `str.lower` acts on the
ASCII tokens appearing in `align` values. -/
def pyCharLower (c : Char) : Char :=
  if 65 ≤ c.toNat ∧ c.toNat ≤ 90 then Char.ofNat (c.toNat + 32) else c

/-- Python `s.lower()` (ASCII). -/
def pyLower (s : String) : String := ⟨s.data.map pyCharLower⟩

/-- Python `s.endswith('%')`. -/
def pyEndsPercent (s : String) : Bool := s.data.getLast? = some '%'

/-- Splitter for Python `s.split('  ')` (the two-space delimiter of the
xrandr monitor format): cuts at each leftmost occurrence of two consecutive
spaces, keeping empty pieces, exactly like CPython `str.split` with a
non-empty separator. -/
def splitDoubleSpaceAux : List Char → List Char → List (List Char)
  | ' ' :: ' ' :: rest, acc => acc.reverse :: splitDoubleSpaceAux rest []
  | c :: rest, acc => splitDoubleSpaceAux rest (c :: acc)
  | [], acc => [acc.reverse]

/-- Python `s.split('  ')`. -/
def pySplitDouble (s : String) : List String :=
  (splitDoubleSpaceAux s.data []).map (fun l => ⟨l⟩)

/-- Splitter for Python `s.split(sep)` with a one-character separator. -/
def splitCharAux (sep : Char) : List Char → List Char → List (List Char)
  | c :: rest, acc =>
      if c = sep then acc.reverse :: splitCharAux sep rest []
      else splitCharAux sep rest (c :: acc)
  | [], acc => [acc.reverse]

/-- Python `s.split(sep)` for a one-character separator. -/
def pySplitChar (sep : Char) (s : String) : List String :=
  (splitCharAux sep s.data []).map (fun l => ⟨l⟩)

/-- Digits-to-number accumulator for a run of ASCII digits. -/
def digitsToNat (ds : List Char) : Nat :=
  ds.foldl (fun acc c => acc * 10 + (c.toNat - 48)) 0

/-- Python `int(s)` on a string: strips surrounding whitespace, allows one
optional sign, then requires a non-empty ASCII digit run, else raises
`ValueError`. (Underscore digit grouping and non-ASCII digits, which CPython
also accepts, never occur in the inputs of interest and are not modelled.) -/
def pyParseInt (s : String) : Except PyErr Int :=
  let t := (pyTrim s).data
  let sgn : Bool × List Char :=
    match t with
    | '-' :: rest => (true, rest)
    | '+' :: rest => (false, rest)
    | _ => (false, t)
  if sgn.2 ≠ [] ∧ sgn.2.all Char.isDigit then
    let n : Int := digitsToNat sgn.2
    .ok (if sgn.1 then -n else n)
  else
    .error .valueError

/-- A Python value that is either an `int` or a `str` (the two shapes the
configuration supplies for `width`, `height` and `screen`). -/
inductive PyVal where
  | int (n : Int)
  | str (s : String)
deriving DecidableEq, Repr

/-- Model of `calc_size` from `winpos.py`: computes the desired size from an int or a
string (bare 1–4 digit integer, or 1–3 digit percentage) against a target. -/
def calc_size (source : PyVal) (target : Int) : Int :=
  match source with
  | .int n =>
      -- source = source if source > 0 else 0; return min(source, target)
      min (if 0 < n then n else 0) target
  | .str s0 =>
      let s := pyTrim s0
      -- re.match(r'^[0-9]{1,4}$', source)
      if s.data.all Char.isDigit ∧ 1 ≤ s.length ∧ s.length ≤ 4 then
        min (digitsToNat s.data : Int) target
      -- re.match(r'^[0-9]{1,3}%$', source)
      else if pyEndsPercent s = true ∧ s.data.dropLast.all Char.isDigit ∧
          1 ≤ s.data.dropLast.length ∧ s.data.dropLast.length ≤ 3 then
        let perc : Int := digitsToNat s.data.dropLast
        let perc := if 0 < perc ∧ perc ≤ 100 then perc else 100
        -- int(target * perc / 100), truncation toward zero
        (target * perc).tdiv 100
      else
        -- log error; return 0
        0

/-- Model of `calc_pos` from `winpos.py`: resolves the two-token `align` string to an
(x, y) pair; malformed alignment raises `AssertionError`. -/
def calc_pos (position : String) (width height screen_width screen_height : Int) :
    Except PyErr (Int × Int) :=
  match pySplitChar ' ' position with
  | [v, hz] =>
      let vert := pyLower v
      let horiz := pyLower hz
      if vert = "top" ∨ vert = "center" ∨ vert = "bottom" ∨ pyEndsPercent vert = true then
        if horiz = "left" ∨ horiz = "center" ∨ horiz = "right" ∨ pyEndsPercent horiz = true then
          let y_pos : Int :=
            if vert = "top" then 0
            else if vert = "center" then (screen_height - height).tdiv 2
            else if vert = "bottom" then screen_height - height
            else calc_size (.str vert) (screen_height - height)
          let x_pos : Int :=
            if horiz = "left" then 0
            else if horiz = "center" then (screen_width - width).tdiv 2
            else if horiz = "right" then screen_width - width
            else calc_size (.str horiz) (screen_width - width)
          .ok (x_pos, y_pos)
        else .error .assertionError
      else .error .assertionError
  | _ => .error .assertionError

/-- The dictionary built by `get_screen_data`: `name` is always set when a
record is returned; every other field may be absent. -/
structure ScreenRec where
  name : String
  index : Option Int := none
  current : Option Bool := none
  x : Option Int := none
  y : Option Int := none
  width : Option Int := none
  width_mm : Option Int := none
  height : Option Int := none
  height_mm : Option Int := none
deriving DecidableEq, Repr

/-- Model of `_get_px_mm` from `winpos.py`: `tuple(map(int, s.split('/')))` unpacked
into exactly two values; any parse failure or wrong arity raises ValueError. -/
def getPxMm (s : String) : Except PyErr (Int × Int) := do
  let parts ← (pySplitChar '/' s).mapM pyParseInt
  match parts with
  | [a, b] => .ok (a, b)
  | _ => .error .valueError

/-- Model of `get_screen_data` from `winpos.py`: parses one line of
`xrandr --listactivemonitors` output. Returns `none` when the line does not
split into exactly two double-space-separated parts; otherwise extracts
whatever stages match, raising `ValueError` on malformed numeric tokens. -/
def get_screen_data (line : String) : Except PyErr (Option ScreenRec) := do
  match pySplitDouble (pyTrim line) with
  | [sd0, nm] =>
      -- stage 2: "<index>: <flags><name> <geometry>"
      let st2 : Except PyErr (Option Int × Option Bool × String) :=
        match pySplitChar ' ' (pyTrim sd0) with
        | [a, b, c] => do
            let i ← pyParseInt (pyStripChar ':' a)
            .ok (some i, some (b.data.contains '*'), c)
        | _ => .ok (none, none, sd0)
      let (idx, cur, g1) ← st2
      -- stage 3: "<WxH block>+<x>+<y>"
      let st3 : Except PyErr (Option Int × Option Int × String) :=
        match pySplitChar '+' g1 with
        | [g0, xs, ys] => do
            let xv ← pyParseInt xs
            let yv ← pyParseInt ys
            .ok (some xv, some yv, g0)
        | _ => .ok (none, none, g1)
      let (xv, yv, g2) ← st3
      -- stage 4: "<w>/<w_mm>x<h>/<h_mm>"
      let st4 : Except PyErr (Option (Int × Int × Int × Int)) :=
        match pySplitChar 'x' g2 with
        | [ws, hs] => do
            let (w, wmm) ← getPxMm ws
            let (h, hmm) ← getPxMm hs
            .ok (some (w, wmm, h, hmm))
        | _ => .ok none
      let wh ← st4
      .ok (some
        { name := nm, index := idx, current := cur, x := xv, y := yv,
          width := wh.map (·.1), width_mm := wh.map (·.2.1),
          height := wh.map (·.2.2.1), height_mm := wh.map (·.2.2.2) })
  | _ => .ok none

/-- The sort key used by `get_active_screens`: `s.get('x', 0)`. -/
def xKey (s : ScreenRec) : Int := s.x.getD 0

/-- Stable insertion of a record into a list sorted by `xKey`: the new
record goes after every existing record whose key is not greater. -/
def insertByX (a : ScreenRec) : List ScreenRec → List ScreenRec
  | [] => [a]
  | b :: bs => if xKey a < xKey b then a :: b :: bs else b :: insertByX a bs

/-- Stable sort by `xKey`, processing the list left to right. CPython
`list.sort(key=...)` is a stable sort, and every stable sort by the same
key computes the same list, so this insertion sort models it exactly. -/
def sortByX (l : List ScreenRec) : List ScreenRec :=
  l.foldl (fun acc a => insertByX a acc) []

/-- The parsing loop of `get_active_screens`: parses each line in order; an
exception raised by `get_screen_data` aborts the whole collection, exactly
as in the Python `for` loop. -/
def parseLines : List String → Except PyErr (List (Option ScreenRec))
  | [] => .ok []
  | l :: ls => do
      let r ← get_screen_data l
      let rest ← parseLines ls
      .ok (r :: rest)

/-- The pure core of `get_active_screens`: takes the lines of the xrandr
output, parses each, drops `None` results (a returned dict always holds at
least `name`, so it is truthy and is kept), and stable-sorts by
`s.get('x', 0)`. -/
def get_active_screens (monitors : List String) : Except PyErr (List ScreenRec) := do
  let parsed ← parseLines monitors
  let res := parsed.filterMap id
  .ok (sortByX res)

/-- One observable external call issued by the orchestrator. `get_window`
(which wraps pgrep/xdotool search and swallows their failures into a `None`
result) is collapsed into a single call whose observable answer is supplied
by the environment. -/
inductive Call where
  | getWindow (search_name search_process : String)
  | setPos (win : String) (x y : Int)
  | setSize (win : String) (w h : Int)
  | setDesktop (win : String) (d : Int)
  | getNumDesktops
  | setNumDesktops (n : Int)
deriving DecidableEq, Repr

/-- How a rule (or the whole run) ends: an uncaught Python exception, an
early `return` after logging an error, or normal completion. -/
inductive Outcome where
  | raised (e : PyErr)
  | skipped
  | completed
deriving DecidableEq, Repr

/-- Observable behaviour of the collaborators while one rule is processed:
the window id `get_window` resolves to (`none` models no match, an ambiguous
process match, or a failed search command), and whether each of the three
placement commands exits non-zero (making `subprocess.check_output` raise
`CalledProcessError`, which `winpos.py` does not catch). -/
structure Env where
  window : Option String
  posFails : Bool
  sizeFails : Bool
  desktopFails : Bool
deriving Repr

/-- A window rule as found in `config.json`: every key is optional.
`screen`, `width` and `height` may hold an int or a string. -/
structure RuleInput where
  name : Option String := none
  search_name : Option String := none
  search_process : Option String := none
  screen : Option PyVal := none
  desktop : Option Int := none
  width : Option PyVal := none
  height : Option PyVal := none
  align : Option String := none
deriving Repr

/-- The rule after `config.update(window_config)` in `arrange_window`:
every field populated, missing keys replaced by the hardcoded defaults. -/
structure RuleConfig where
  name : String
  search_name : String
  search_process : String
  screen : PyVal
  desktop : Int
  width : PyVal
  height : PyVal
  align : String
deriving Repr

/-- The defaults dict of `arrange_window`, updated with the rule's keys. -/
def mergeDefaults (r : RuleInput) : RuleConfig :=
  { name := r.name.getD "Unknown"
    search_name := r.search_name.getD ""
    search_process := r.search_process.getD ""
    screen := r.screen.getD (.int 0)
    desktop := r.desktop.getD 2
    width := r.width.getD (.int 0)
    height := r.height.getD (.int 0)
    align := r.align.getD "top left" }

/-- Python list subscription `xs[i]` with an `int` index: negative indices
count from the end; out of range raises `IndexError`. -/
def pyIndex (xs : List α) (i : Int) : Except PyErr α :=
  let j := if i < 0 then i + xs.length else i
  if h : 0 ≤ j ∧ j < (xs.length : Int) then
    .ok (xs.get ⟨j.toNat, by omega⟩)
  else .error .indexError

/-- The data `arrange_window` has in hand when it starts issuing the three
placement commands. -/
structure Placement where
  win : String
  name : String
  x : Int
  y : Int
  width : Int
  height : Int
  desktop : Int
deriving DecidableEq, Repr

/-- The part of `arrange_window` before the placement commands: defaults
merge, the two asserts, the screen bounds check, window resolution and
geometry computation. Returns the calls issued so far together with either
an early outcome or the placement data. -/
def prepare (rule : RuleInput) (screens : List ScreenRec) (env : Env) :
    List Call × Except Outcome Placement :=
  let config := mergeDefaults rule
  -- assert config['search_name'] or config['search_process']
  if config.search_name = "" ∧ config.search_process = "" then
    ([], .error (.raised .assertionError))
  else
    -- assert isinstance(config['screen'], int)
    match config.screen with
    | .str _ => ([], .error (.raised .assertionError))
    | .int scr =>
      -- if len(screens) <= config['screen']: log(...); return
      if (screens.length : Int) ≤ scr then
        ([], .error .skipped)
      else
        match pyIndex screens scr with
        | .error e => ([], .error (.raised e))
        | .ok screen =>
          let callGW := Call.getWindow config.search_name config.search_process
          -- win_id = get_window(...); if not win_id: log(...); return
          match env.window with
          | none => ([callGW], .error .skipped)
          | some win =>
            if win = "" then ([callGW], .error .skipped)
            else
              -- screen['width'], screen['height'] dict accesses
              match screen.width with
              | none => ([callGW], .error (.raised .keyError))
              | some sw =>
                match screen.height with
                | none => ([callGW], .error (.raised .keyError))
                | some sh =>
                  let width := calc_size config.width sw
                  let height := calc_size config.height sh
                  match calc_pos config.align width height sw sh with
                  | .error e => ([callGW], .error (.raised e))
                  | .ok xy =>
                    -- x_pos + screen['x'], y_pos + screen['y']
                    match screen.x with
                    | none => ([callGW], .error (.raised .keyError))
                    | some sx =>
                      match screen.y with
                      | none => ([callGW], .error (.raised .keyError))
                      | some sy =>
                        ([callGW],
                          .ok { win := win, name := config.name,
                                x := xy.1 + sx, y := xy.2 + sy,
                                width := width, height := height,
                                desktop := config.desktop })

/-- The tail of `arrange_window`: `set_window_pos`, `set_window_size`,
`set_window_desktop`, each a `subprocess.check_output` call whose non-zero
exit raises `CalledProcessError` out of `arrange_window`. -/
def place (env : Env) (p : Placement) : List Call × Outcome :=
  let c1 := Call.setPos p.win p.x p.y
  if env.posFails then ([c1], .raised .calledProcessError)
  else
    let c2 := Call.setSize p.win p.width p.height
    if env.sizeFails then ([c1, c2], .raised .calledProcessError)
    else
      let c3 := Call.setDesktop p.win p.desktop
      if env.desktopFails then ([c1, c2, c3], .raised .calledProcessError)
      else ([c1, c2, c3], .completed)

/-- Model of `arrange_window` from `winpos.py`: the preparation phase followed, when
it succeeds, by the three placement commands. -/
def arrange_window (rule : RuleInput) (screens : List ScreenRec) (env : Env) :
    List Call × Outcome :=
  match prepare rule screens env with
  | (cs, .error o) => (cs, o)
  | (cs, .ok p) =>
      let r := place env p
      (cs ++ r.1, r.2)

/-- Model of `set_desktops` from `winpos.py`: queries the current desktop count and
requests growth only when fewer than `count` exist (never shrinks). -/
def set_desktops (numDesktops : Int) (count : Int) : List Call :=
  if count ≤ numDesktops then [Call.getNumDesktops]
  else [Call.getNumDesktops, Call.setNumDesktops count]

/-- The `for win_conf in config` loop of `arrange_windows`: an exception
raised by `arrange_window` propagates and aborts the loop; logged skips do
not. `envOf i` is the collaborator behaviour while rule `i` is processed. -/
def runRules (screens : List ScreenRec) (envOf : Nat → Env) :
    List RuleInput → Nat → List Call × Outcome
  | [], _ => ([], .completed)
  | r :: rs, i =>
      let first := arrange_window r screens (envOf i)
      match first.2 with
      | .raised e => (first.1, .raised e)
      | _ =>
          let rest := runRules screens envOf rs (i + 1)
          (first.1 ++ rest.1, rest.2)

/-- Model of `arrange_windows` from `winpos.py`. `screens` stands for the result of
`get_active_screens` and `numDesktops` for the `xdotool get_num_desktops`
answer. `get_config` asserts the configuration is a non-empty list, so an
empty rule list raises `AssertionError`; otherwise the run computes
`max(c.get('desktop', 0) for c in config)`, calls `set_desktops`, then
processes the rules in order. -/
def arrange_windows (config : List RuleInput) (screens : List ScreenRec)
    (numDesktops : Int) (envOf : Nat → Env) : List Call × Outcome :=
  match config with
  | [] => ([], .raised .assertionError)
  | c :: cs =>
      let maxDesktop := (cs.map (fun r => r.desktop.getD 0)).foldl max (c.desktop.getD 0)
      let setup := set_desktops numDesktops (maxDesktop + 1)
      let rest := runRules screens envOf (c :: cs) 0
      (setup ++ rest.1, rest.2)

/-! ## Concrete fixtures used by witnesses and counterexamples -/

/-- The first xrandr line of the spec's scenario. -/
def dp2line : String := "0: +*DP-2 3440/820x1440/346+2560+0  DP-2"

/-- The second xrandr line of the spec's scenario. -/
def dp4line : String := "1: +DP-4 2560/345x1600/215+0+0  DP-4"

/-- The parsed record of `dp2line`. -/
def dp2rec : ScreenRec :=
  { name := "DP-2", index := some 0, current := some true, x := some 2560,
    y := some 0, width := some 3440, width_mm := some 820,
    height := some 1440, height_mm := some 346 }

/-- The parsed record of `dp4line`. -/
def dp4rec : ScreenRec :=
  { name := "DP-4", index := some 1, current := some false, x := some 0,
    y := some 0, width := some 2560, width_mm := some 345,
    height := some 1600, height_mm := some 215 }

/-- A collaborator environment in which the window is found and every
placement command succeeds. -/
def envOK : Env :=
  { window := some "w1", posFails := false, sizeFails := false, desktopFails := false }

/-- A collaborator environment in which the move command exits non-zero. -/
def envPosFail : Env := { envOK with posFails := true }

/-- A rule with a search criterion and otherwise default keys. -/
def ruleBasic : RuleInput := { search_name := some "term" }

/-- A rule with no `search_name` and no `search_process` key. -/
def ruleNoSearch : RuleInput := {}

/-- A rule whose screen index is the negative integer -1. -/
def ruleNegScreen : RuleInput := { search_name := some "term", screen := some (.int (-1)) }

/-- A rule referencing screen 5. -/
def ruleScreen5 : RuleInput := { search_name := some "term", screen := some (.int 5) }

/-- The placement data `ruleBasic` resolves to on `dp4rec` with `envOK` or
`envPosFail` (default width/height 0, align "top left", desktop 2). -/
def place0 : Placement :=
  { win := "w1", name := "Unknown", x := 0, y := 0, width := 0, height := 0,
    desktop := 2 }

/-! ## Shared lemmas about the geometry resolver -/

/-- A coerced percentage in `(0, 100]` keeps `(T * p).tdiv 100` within
`[0, T]` for a non-negative target. -/
theorem tdiv_perc_bounds (T p : Int) (hT : 0 ≤ T) (hp0 : 0 < p) (hp : p ≤ 100) :
    0 ≤ (T * p).tdiv 100 ∧ (T * p).tdiv 100 ≤ T := by
  have hnn : 0 ≤ T * p := mul_nonneg hT hp0.le
  constructor
  · exact Int.tdiv_nonneg hnn (by norm_num)
  · rw [Int.tdiv_eq_ediv hnn (by norm_num)]
    calc T * p / 100 ≤ T * 100 / 100 :=
          Int.ediv_le_ediv (by norm_num) (by nlinarith)
      _ = T := Int.mul_ediv_cancel T (by norm_num)

/-- For a non-negative target, `calc_size` lands in `[0, target]` whatever
the source value is. -/
theorem calc_size_bounds_aux (v : PyVal) (T : Int) (hT : 0 ≤ T) :
    0 ≤ calc_size v T ∧ calc_size v T ≤ T := by
  cases v with
  | int n =>
      refine ⟨le_min ?_ hT, min_le_right _ _⟩
      split <;> omega
  | str s0 =>
      simp only [calc_size]
      split
      · exact ⟨le_min (by positivity) hT, min_le_right _ _⟩
      · split
        · exact tdiv_perc_bounds T _ hT (by split <;> omega) (by split <;> omega)
        · exact ⟨le_refl 0, hT⟩

/-! ## C4 -/

/-- C4 counterexample: the claim quantifies over every target extent, but a
negative target makes `calc_size` return a negative value (here
`calc_size(0, -1) = -1 < 0`), contradicting "never negative". -/
theorem calc_size_negative_on_negative_target :
    calc_size (PyVal.int 0) (-1) < 0 := by decide

/-- C4 (amended): for every source value (integer or string) and every
non-negative target extent, `calc_size` returns a value in `[0, target]`. -/
theorem calc_size_bounded_of_nonneg_target (v : PyVal) (T : Int) (hT : 0 ≤ T) :
    0 ≤ calc_size v T ∧ calc_size v T ≤ T :=
  calc_size_bounds_aux v T hT

/-- C4 witness: the bounds at the concrete input `("150%", 1000)`. -/
theorem calc_size_bounded_witness :
    0 ≤ calc_size (PyVal.str "150%") 1000 ∧ calc_size (PyVal.str "150%") 1000 ≤ 1000 :=
  calc_size_bounded_of_nonneg_target (PyVal.str "150%") 1000 (by decide)

/-! ## C10 -/

/-- C10 counterexample: idempotence fails on a negative target extent:
`calc_size("90%", -5) = -4` but `calc_size(-4, -5) = -5`. -/
theorem calc_size_not_idempotent_on_negative_target :
    calc_size (PyVal.int (calc_size (PyVal.str "90%") (-5))) (-5) ≠
      calc_size (PyVal.str "90%") (-5) := by decide

/-- C10 (amended): for every source value and every non-negative target
extent, `calc_size` is idempotent under re-application to its own output. -/
theorem calc_size_idempotent_of_nonneg_target (v : PyVal) (T : Int) (hT : 0 ≤ T) :
    calc_size (PyVal.int (calc_size v T)) T = calc_size v T := by
  obtain ⟨h0, h1⟩ := calc_size_bounds_aux v T hT
  have hstep : calc_size (PyVal.int (calc_size v T)) T
      = min (if 0 < calc_size v T then calc_size v T else 0) T := rfl
  rw [hstep]
  rcases eq_or_lt_of_le h0 with h | h
  · rw [if_neg (by omega), min_eq_left hT, ← h]
  · rw [if_pos h, min_eq_left h1]

/-- C10 witness: idempotence at the concrete input `("50%", 2560)`. -/
theorem calc_size_idempotent_witness :
    calc_size (PyVal.int (calc_size (PyVal.str "50%") 2560)) 2560 =
      calc_size (PyVal.str "50%") 2560 :=
  calc_size_idempotent_of_nonneg_target (PyVal.str "50%") 2560 (by decide)

/-! ## C5 -/

/-- C5 counterexample: with `align = "center center"`, `width = 3`,
`height = 0`, `screen_width = 0`, `screen_height = 5`, the code computes
`x = int((0 - 3) / 2) = -1` (truncation toward zero), while the claim's
floor division gives `(0 - 3) // 2 = -2`. -/
theorem calc_pos_center_truncates_toward_zero :
    calc_pos "center center" 3 0 0 5 = Except.ok (-1, 2) ∧
      ((0 : Int) - 3).fdiv 2 = -2 ∧ (-1 : Int) ≠ -2 :=
  ⟨rfl, by decide, by decide⟩

/-- C5 (amended): `calc_pos` with `"top left"` yields `(0, 0)`; with
`"center center"` it yields `((screen_width - width) / 2,
(screen_height - height) / 2)` computed with truncation toward zero (which
coincides with the claim's floor division whenever the remaining extent is
non-negative, as the final conjunct records); with vertical token
`"bottom"` it yields `y = screen_height - height`, and with horizontal
token `"right"` it yields `x = screen_width - width`. -/
theorem calc_pos_keyword_alignments (w h sw sh : Int) (d : Nat) :
    calc_pos "top left" w h sw sh = Except.ok (0, 0) ∧
    calc_pos "center center" w h sw sh =
      Except.ok ((sw - w).tdiv 2, (sh - h).tdiv 2) ∧
    calc_pos "bottom left" w h sw sh = Except.ok (0, sh - h) ∧
    calc_pos "bottom center" w h sw sh = Except.ok ((sw - w).tdiv 2, sh - h) ∧
    calc_pos "bottom right" w h sw sh = Except.ok (sw - w, sh - h) ∧
    calc_pos "top right" w h sw sh = Except.ok (sw - w, 0) ∧
    calc_pos "center right" w h sw sh = Except.ok (sw - w, (sh - h).tdiv 2) ∧
    ((d : Int)).tdiv 2 = ((d : Int)).fdiv 2 := by
  refine ⟨rfl, rfl, rfl, rfl, rfl, rfl, rfl, ?_⟩
  rw [Int.tdiv_eq_ediv (by positivity) (by norm_num),
    Int.fdiv_eq_ediv _ (by norm_num)]

/-! ## Shared lemmas about the screen collection -/

theorem mem_insertByX {x a : ScreenRec} :
    ∀ {l : List ScreenRec}, x ∈ insertByX a l ↔ x = a ∨ x ∈ l := by
  intro l
  induction l with
  | nil => simp [insertByX]
  | cons b bs ih =>
      simp only [insertByX]
      split
      · simp [List.mem_cons]
      · simp only [List.mem_cons, ih]
        tauto

theorem pairwise_insertByX {a : ScreenRec} {l : List ScreenRec}
    (h : l.Pairwise (fun p q => xKey p ≤ xKey q)) :
    (insertByX a l).Pairwise (fun p q => xKey p ≤ xKey q) := by
  induction l with
  | nil => simp [insertByX]
  | cons b bs ih =>
      rw [List.pairwise_cons] at h
      simp only [insertByX]
      split
      · rename_i hab
        refine List.Pairwise.cons ?_ (List.Pairwise.cons h.1 h.2)
        intro x hx
        rcases List.mem_cons.mp hx with rfl | hx
        · exact le_of_lt hab
        · exact le_trans (le_of_lt hab) (h.1 x hx)
      · rename_i hab
        refine List.Pairwise.cons ?_ (ih h.2)
        intro x hx
        rcases mem_insertByX.mp hx with rfl | hx
        · exact not_lt.mp hab
        · exact h.1 x hx

theorem filter_insertByX (k : Int) (a : ScreenRec) :
    ∀ (l : List ScreenRec), l.Pairwise (fun p q => xKey p ≤ xKey q) →
      (insertByX a l).filter (fun s => decide (xKey s = k)) =
        if xKey a = k then
          l.filter (fun s => decide (xKey s = k)) ++ [a]
        else
          l.filter (fun s => decide (xKey s = k)) := by
  intro l
  induction l with
  | nil =>
      intro _
      by_cases hk : xKey a = k <;> simp [insertByX, List.filter, hk]
  | cons b bs ih =>
      intro h
      rw [List.pairwise_cons] at h
      simp only [insertByX]
      split
      · rename_i hab
        have hnil : (b :: bs).filter (fun s => decide (xKey s = k)) = [] ∨ xKey a ≠ k := by
          by_cases hk : xKey a = k
          · left
            rw [List.filter_eq_nil_iff]
            intro x hx
            have hgt : xKey a < xKey x := by
              rcases List.mem_cons.mp hx with rfl | hx
              · exact hab
              · exact lt_of_lt_of_le hab (h.1 x hx)
            simp only [decide_eq_true_eq]
            omega
          · right; exact hk
        by_cases hk : xKey a = k
        · rcases hnil with hnil | hne
          · rw [if_pos hk, hnil, List.filter_cons, if_pos (by simp [hk])]
            rw [hnil]
            rfl
          · exact absurd hk hne
        · rw [if_neg hk, List.filter_cons, if_neg (by simp [hk])]
      · rename_i hab
        rw [List.filter_cons, ih h.2, List.filter_cons]
        by_cases hk : xKey a = k <;> by_cases hb : xKey b = k <;>
          simp [hk, hb]


theorem pairwise_sortByX_aux :
    ∀ (l acc : List ScreenRec), acc.Pairwise (fun p q => xKey p ≤ xKey q) →
      (l.foldl (fun acc a => insertByX a acc) acc).Pairwise (fun p q => xKey p ≤ xKey q) := by
  intro l
  induction l with
  | nil => intro acc h; simpa using h
  | cons a l ih =>
      intro acc h
      exact ih (insertByX a acc) (pairwise_insertByX h)

/-- The collected list is pairwise non-decreasing in the sort key. -/
theorem pairwise_sortByX (l : List ScreenRec) :
    (sortByX l).Pairwise (fun p q => xKey p ≤ xKey q) :=
  pairwise_sortByX_aux l [] (by simp)

theorem filter_sortByX_aux (k : Int) :
    ∀ (l acc : List ScreenRec), acc.Pairwise (fun p q => xKey p ≤ xKey q) →
      (l.foldl (fun acc a => insertByX a acc) acc).filter (fun s => decide (xKey s = k)) =
        acc.filter (fun s => decide (xKey s = k)) ++ l.filter (fun s => decide (xKey s = k)) := by
  intro l
  induction l with
  | nil => intro acc _; simp
  | cons a l ih =>
      intro acc h
      have hstep := filter_insertByX k a acc h
      rw [List.foldl_cons, ih (insertByX a acc) (pairwise_insertByX h), hstep,
        List.filter_cons]
      by_cases hk : xKey a = k <;> simp [hk]

/-- Stability: the records carrying any fixed sort key appear in the sorted
list exactly in their original order. -/
theorem filter_sortByX (l : List ScreenRec) (k : Int) :
    (sortByX l).filter (fun s => decide (xKey s = k)) =
      l.filter (fun s => decide (xKey s = k)) := by
  have := filter_sortByX_aux k l [] (by simp)
  simpa using this

theorem mem_sortByX_aux {x : ScreenRec} :
    ∀ (l acc : List ScreenRec),
      (x ∈ l.foldl (fun acc a => insertByX a acc) acc ↔ x ∈ acc ∨ x ∈ l) := by
  intro l
  induction l with
  | nil => intro acc; simp
  | cons a l ih =>
      intro acc
      rw [List.foldl_cons, ih (insertByX a acc)]
      simp only [mem_insertByX, List.mem_cons]
      tauto

theorem mem_sortByX {x : ScreenRec} {l : List ScreenRec} :
    x ∈ sortByX l ↔ x ∈ l := by
  have := mem_sortByX_aux (x := x) l []
  simpa [sortByX] using this

/-- Every parse result in a successful `parseLines` run comes from one of
the input lines. -/
theorem parseLines_mem :
    ∀ {lines : List String} {out : List (Option ScreenRec)},
      parseLines lines = .ok out →
      ∀ p ∈ out, ∃ line ∈ lines, get_screen_data line = .ok p := by
  intro lines
  induction lines with
  | nil =>
      intro out h p hp
      simp only [parseLines] at h
      cases h
      simp at hp
  | cons l ls ih =>
      intro out h p hp
      simp only [parseLines] at h
      cases hg : get_screen_data l with
      | error e => rw [hg] at h; simp [Bind.bind, Except.bind] at h
      | ok r =>
          rw [hg] at h
          cases hrest : parseLines ls with
          | error e => rw [hrest] at h; simp [Bind.bind, Except.bind] at h
          | ok rest =>
              rw [hrest] at h
              simp only [Bind.bind, Except.bind] at h
              cases h
              rcases List.mem_cons.mp hp with rfl | hmem
              · exact ⟨l, List.mem_cons_self l ls, hg⟩
              · obtain ⟨line, hline, he⟩ := ih hrest p hmem
                exact ⟨line, List.mem_cons_of_mem l hline, he⟩

/-! ## C8 -/

/-- C8 counterexample: the per-line parser is not total. The line
`"a: b c  n"` passes the double-space structural check, so stage 2 runs
`int('a:'.strip(':'))`, which raises an uncaught `ValueError` instead of
dropping the line. -/
theorem get_screen_data_raises_on_malformed_int :
    get_screen_data "a: b c  n" = Except.error PyErr.valueError := rfl

/-- C8 (amended): a line that fails the initial structural check (its
stripped text does not split into exactly two double-space-separated parts)
is silently dropped by returning null; but a structurally matching line
whose numeric tokens are malformed raises an uncaught `ValueError`, so the
parser is not total. -/
theorem get_screen_data_none_of_bad_split (line : String)
    (h : (pySplitDouble (pyTrim line)).length ≠ 2) :
    get_screen_data line = .ok none := by
  unfold get_screen_data
  rcases hl : pySplitDouble (pyTrim line) with _ | ⟨a, _ | ⟨b, _ | ⟨c, rest⟩⟩⟩
  · rfl
  · rfl
  · rw [hl] at h
    simp at h
  · rfl

/-- C8 witness: the xrandr summary header is silently dropped. -/
theorem get_screen_data_none_witness :
    get_screen_data "Monitors: 2" = Except.ok none :=
  get_screen_data_none_of_bad_split "Monitors: 2" (by decide)

/-! ## C3 -/

/-- C3 counterexample: the line `"foo  bar"` parses to a record with no
width and no height, and `get_active_screens` still puts it in the returned
screen list (the only records dropped are the `None` results). -/
theorem get_active_screens_admits_widthless_record :
    get_active_screens ["foo  bar"] = Except.ok [{ name := "bar" }] ∧
      ({ name := "bar" } : ScreenRec).width = none ∧
      ({ name := "bar" } : ScreenRec).height = none :=
  ⟨rfl, rfl, rfl⟩

/-- C3 (amended): every record in the returned screen list is a record
successfully parsed from one of the input lines; no width/height presence
or positivity check is performed, so parse-incomplete records may enter the
list. -/
theorem get_active_screens_records_from_lines
    (lines : List String) (res : List ScreenRec) (r : ScreenRec)
    (h : get_active_screens lines = .ok res) (hr : r ∈ res) :
    ∃ line ∈ lines, get_screen_data line = .ok (some r) := by
  cases hp : parseLines lines with
  | error e =>
      unfold get_active_screens at h
      rw [hp] at h
      simp [Bind.bind, Except.bind] at h
  | ok out =>
      unfold get_active_screens at h
      rw [hp] at h
      simp only [Bind.bind, Except.bind, Except.ok.injEq] at h
      subst h
      have hr' : r ∈ out.filterMap id := mem_sortByX.mp hr
      have hsome : some r ∈ out := by
        obtain ⟨o, ho, he⟩ := List.mem_filterMap.mp hr'
        have ho' : o = some r := by simpa using he
        exact ho' ▸ ho
      exact parseLines_mem hp (some r) hsome

/-- C3 witness: the record collected from the spec's DP-4 line does come
from that line. -/
theorem get_active_screens_records_witness :
    ∃ line ∈ [dp4line], get_screen_data line = .ok (some dp4rec) :=
  get_active_screens_records_from_lines [dp4line] [dp4rec] dp4rec rfl
    (List.mem_singleton.mpr rfl)

/-! ## C9 -/

/-- C9: for every input line list (hence every permutation of the same
monitor lines), a successful collection is pairwise non-decreasing in the
sort key `s.get('x', 0)`, and the records holding any fixed key value
appear exactly in their original report order (stable sort). -/
theorem get_active_screens_sorted_and_stable
    (lines : List String) (res : List ScreenRec) (k : Int)
    (h : get_active_screens lines = .ok res) :
    res.Pairwise (fun p q => xKey p ≤ xKey q) ∧
      ∃ out, parseLines lines = .ok out ∧
        res.filter (fun s => decide (xKey s = k)) =
          (out.filterMap id).filter (fun s => decide (xKey s = k)) := by
  cases hp : parseLines lines with
  | error e =>
      unfold get_active_screens at h
      rw [hp] at h
      simp [Bind.bind, Except.bind] at h
  | ok out =>
      unfold get_active_screens at h
      rw [hp] at h
      simp only [Bind.bind, Except.bind, Except.ok.injEq] at h
      subst h
      exact ⟨pairwise_sortByX _, out, rfl, filter_sortByX _ k⟩

/-- C9 witness: the spec's two monitor lines, given right-screen-first,
collect into the left-to-right sorted list. -/
theorem get_active_screens_sorted_witness :
    ([dp4rec, dp2rec] : List ScreenRec).Pairwise (fun p q => xKey p ≤ xKey q) ∧
      ∃ out, parseLines [dp2line, dp4line] = .ok out ∧
        ([dp4rec, dp2rec] : List ScreenRec).filter (fun s => decide (xKey s = 0)) =
          (out.filterMap id).filter (fun s => decide (xKey s = 0)) :=
  get_active_screens_sorted_and_stable [dp2line, dp4line] [dp4rec, dp2rec] 0 rfl

/-- Unfolding of the rule loop at a cons cell. -/
theorem runRules_cons_eq (screens : List ScreenRec) (envOf : Nat → Env)
    (r : RuleInput) (rs : List RuleInput) (i : Nat) :
    runRules screens envOf (r :: rs) i =
      match (arrange_window r screens (envOf i)).2 with
      | .raised e => ((arrange_window r screens (envOf i)).1, .raised e)
      | _ => ((arrange_window r screens (envOf i)).1 ++ (runRules screens envOf rs (i + 1)).1,
              (runRules screens envOf rs (i + 1)).2) := by
  rw [runRules.eq_def]

/-! ## C1 -/

/-- C1 counterexample: a run with a searchless first rule and a valid second
rule aborts with an uncaught AssertionError after only the desktop-count
query: the failure is not a logged skip and the run does not continue to the
remaining rules. -/
theorem arrange_windows_aborts_on_searchless_rule :
    arrange_windows [ruleNoSearch, ruleBasic] [dp4rec, dp2rec] 5 (fun _ => envOK) =
      ([Call.getNumDesktops], Outcome.raised PyErr.assertionError) := rfl

/-- C1 (amended): a rule lacking both `search_name` and `search_process`
does fail validation before any external call for the rule is attempted,
but via an uncaught AssertionError rather than a reported skip: the rule's
call list is empty, the exception propagates, and a run that reaches such a
rule aborts without processing the remaining rules. -/
theorem arrange_window_asserts_without_search
    (rule : RuleInput) (screens : List ScreenRec) (env : Env)
    (rest : List RuleInput) (envOf : Nat → Env) (i : Nat)
    (hn : (mergeDefaults rule).search_name = "")
    (hp : (mergeDefaults rule).search_process = "")
    (hi : envOf i = env) :
    arrange_window rule screens env = ([], Outcome.raised PyErr.assertionError) ∧
      runRules screens envOf (rule :: rest) i =
        ([], Outcome.raised PyErr.assertionError) := by
  have h1 : prepare rule screens env = ([], .error (.raised .assertionError)) := by
    unfold prepare
    rw [if_pos ⟨hn, hp⟩]
  have h2 : arrange_window rule screens env = ([], .raised .assertionError) := by
    unfold arrange_window
    rw [h1]
  refine ⟨h2, ?_⟩
  unfold runRules
  rw [hi, h2]

/-- C1 witness: the amended behaviour at the concrete searchless rule. -/
theorem arrange_window_asserts_witness :
    arrange_window ruleNoSearch [dp4rec] envOK =
        ([], Outcome.raised PyErr.assertionError) ∧
      runRules [dp4rec] (fun _ => envOK) [ruleNoSearch, ruleBasic] 0 =
        ([], Outcome.raised PyErr.assertionError) :=
  arrange_window_asserts_without_search ruleNoSearch [dp4rec] envOK [ruleBasic]
    (fun _ => envOK) 0 rfl rfl rfl

/-! ## C2 -/

/-- C2 counterexample: with a failing move command, the orchestrator raises
an uncaught CalledProcessError: the resize and desktop-assignment calls of
the same rule are never attempted and the run aborts before the second
rule, contradicting the claimed independence and non-fatality. -/
theorem arrange_windows_aborts_on_failed_move :
    arrange_windows [ruleBasic, ruleBasic] [dp4rec] 5 (fun _ => envPosFail) =
      ([Call.getNumDesktops, Call.getWindow "term" "", Call.setPos "w1" 0 0],
        Outcome.raised PyErr.calledProcessError) := rfl

/-- C2 (amended): once a rule reaches the placement phase, the orchestrator
issues move, then resize, then desktop-assignment, in that order; but each
is an unguarded `subprocess.check_output` call, so the first failure raises
CalledProcessError, the rule's remaining calls are not attempted, and the
run aborts instead of continuing with the remaining rules. -/
theorem arrange_window_placement_order
    (rule : RuleInput) (screens : List ScreenRec) (env : Env)
    (cs : List Call) (p : Placement)
    (rest : List RuleInput) (envOf : Nat → Env) (i : Nat)
    (hprep : prepare rule screens env = (cs, .ok p))
    (hi : envOf i = env) :
    arrange_window rule screens env =
      (cs ++ (Call.setPos p.win p.x p.y ::
        (if env.posFails then []
         else Call.setSize p.win p.width p.height ::
           (if env.sizeFails then []
            else [Call.setDesktop p.win p.desktop]))),
       if env.posFails || env.sizeFails || env.desktopFails then
         Outcome.raised PyErr.calledProcessError
       else Outcome.completed) ∧
      (runRules screens envOf (rule :: rest) i).2 =
        (if env.posFails || env.sizeFails || env.desktopFails then
           Outcome.raised PyErr.calledProcessError
         else (runRules screens envOf rest (i + 1)).2) := by
  obtain ⟨w, pf, sf, df⟩ := env
  have harr : arrange_window rule screens ⟨w, pf, sf, df⟩ =
      (cs ++ (Call.setPos p.win p.x p.y ::
        (if pf then []
         else Call.setSize p.win p.width p.height ::
           (if sf then [] else [Call.setDesktop p.win p.desktop]))),
       if pf || sf || df then Outcome.raised PyErr.calledProcessError
       else Outcome.completed) := by
    unfold arrange_window
    rw [hprep]
    cases pf <;> cases sf <;> cases df <;> rfl
  refine ⟨harr, ?_⟩
  rw [runRules_cons_eq, hi, harr]
  cases pf <;> cases sf <;> cases df <;> simp

/-- C2 witness: the amended behaviour at a concrete rule whose move command
fails. -/
theorem arrange_window_placement_witness :
    arrange_window ruleBasic [dp4rec] envPosFail =
      ([Call.getWindow "term" ""] ++ (Call.setPos place0.win place0.x place0.y ::
        (if envPosFail.posFails then []
         else Call.setSize place0.win place0.width place0.height ::
           (if envPosFail.sizeFails then []
            else [Call.setDesktop place0.win place0.desktop]))),
       if envPosFail.posFails || envPosFail.sizeFails || envPosFail.desktopFails then
         Outcome.raised PyErr.calledProcessError
       else Outcome.completed) ∧
      (runRules [dp4rec] (fun _ => envPosFail) [ruleBasic, ruleBasic] 0).2 =
        (if envPosFail.posFails || envPosFail.sizeFails || envPosFail.desktopFails then
           Outcome.raised PyErr.calledProcessError
         else (runRules [dp4rec] (fun _ => envPosFail) [ruleBasic] 1).2) :=
  arrange_window_placement_order ruleBasic [dp4rec] envPosFail
    [Call.getWindow "term" ""] place0 [ruleBasic] (fun _ => envPosFail) 0 rfl rfl

/-! ## C6 -/

/-- C6 counterexample: a rule whose screen index is the integer -1 (not a
non-negative in-range index) is not skipped: with two active screens the
bounds test `len(screens) <= -1` is false, Python negative indexing selects
the last screen, and the window operations are all issued. -/
theorem arrange_window_accepts_negative_screen :
    arrange_window ruleNegScreen [dp4rec, dp2rec] envOK =
      ([Call.getWindow "term" "", Call.setPos "w1" 2560 0,
        Call.setSize "w1" 0 0, Call.setDesktop "w1" 2], Outcome.completed) := rfl

/-- C6 (amended): a rule whose screen index is an integer greater than or
equal to the live screen count is skipped with a reported error: no window
operation (indeed no external call at all) is issued for it and nothing is
raised. (A non-integer index instead fails an assert, and a negative index
is accepted via end-relative indexing.) -/
theorem arrange_window_skips_out_of_range_screen
    (rule : RuleInput) (screens : List ScreenRec) (env : Env) (n : Int)
    (hs : ¬((mergeDefaults rule).search_name = "" ∧
      (mergeDefaults rule).search_process = ""))
    (hscr : (mergeDefaults rule).screen = .int n)
    (hn : (screens.length : Int) ≤ n) :
    arrange_window rule screens env = ([], Outcome.skipped) := by
  have h1 : prepare rule screens env = ([], .error .skipped) := by
    unfold prepare
    rw [if_neg hs, hscr]
    dsimp only
    rw [if_pos hn]
  unfold arrange_window
  rw [h1]

/-- C6 witness: the rule referencing screen 5 with two active screens is
skipped without any external call. -/
theorem arrange_window_skips_witness :
    arrange_window ruleScreen5 [dp4rec, dp2rec] envOK = ([], Outcome.skipped) :=
  arrange_window_skips_out_of_range_screen ruleScreen5 [dp4rec, dp2rec] envOK 5
    (by decide) rfl (by decide)

/-! ## C7 -/

/-- C7: the desktop-count bug evaluated at the failing input. With one rule
that has no `desktop` key and one existing desktop, the run computes
`max(c.get('desktop', 0)) = 0` and ensures only `0 + 1 = 1` desktop (a
no-op), yet `arrange_window` then assigns the window to the default desktop
index 2, which is not strictly below the ensured count — the two defaults
(0 in the maximum, 2 at placement) disagree. -/
theorem arrange_windows_desktop_default_mismatch :
    arrange_windows [ruleBasic] [dp4rec] 1 (fun _ => envOK) =
      ([Call.getNumDesktops, Call.getWindow "term" "",
        Call.setPos "w1" 0 0, Call.setSize "w1" 0 0,
        Call.setDesktop "w1" 2], Outcome.completed) ∧
      ¬((2 : Int) < 0 + 1) :=
  ⟨rfl, by decide⟩

end WinPos
